import Mathlib

/-
Verification of the Gophunc core (Optional / Either / Result / Promise and
the All / Any combinators) against its natural-language specification.

The Go source is shallowly embedded:
  * Go structs become Lean structures with the same fields.
  * A Go zero value becomes `default` of an `Inhabited` instance that mirrors
    the zero value field by field.
  * A Go `error` variable (nilable) becomes `Option GoError`, `none` = nil.
  * The completed state of a promise goroutine becomes an explicit state value
    (`Promise`), and channel receives become explicit state passing.
  * A Go panic (index out of range) becomes `none` of an `Option` result.
Concurrency is modelled by quantifying over the arrival (completion) order of
the per-promise goroutines: each goroutine body from the source runs atomically,
and a list of promises handed to a combinator is taken in arrival order, with
`List.Perm` relating it to the original input order.
-/

namespace Gophunc

/-- Models a non-nil Go `error` value. `msg s` is `errors.New(s)`;
`join es` is the error built by `errors.Join` wrapping the (non-nil)
errors `es`, preserving every individual cause. -/
inductive GoError where
  | msg : String → GoError
  | join : List GoError → GoError

/-- Go `errors.Join(errs...)`: discards nil entries; returns nil when every
entry is nil, otherwise an error wrapping all non-nil entries. -/
def joinErrors (errs : List (Option GoError)) : Option GoError :=
  let nonNil := errs.filterMap id
  if nonNil.isEmpty then none else some (GoError.join nonNil)

/-- Embeds `Optional[T]` (src/unnamed/part_002): `{ value T; isSet bool }`. -/
structure Optional (T : Type) where
  value : T
  isSet : Bool

/-- The Go zero value of `Optional[T]`: zero value of `T`, `isSet` false. -/
instance {T : Type} [Inhabited T] : Inhabited (Optional T) :=
  ⟨⟨default, false⟩⟩

/-- Embeds `Just` (src/unnamed/part_002): an Optional with a value. -/
def Just {T : Type} (t : T) : Optional T :=
  ⟨t, true⟩

/-- Embeds `Nothing` (src/unnamed/part_002): an Optional without a value;
the `value` field is left at the Go zero value of `T`. -/
def Nothing (T : Type) [Inhabited T] : Optional T :=
  ⟨default, false⟩

/-- Embeds `Optional.IsSet` (src/unnamed/part_002). -/
def Optional.IsSet {T : Type} (o : Optional T) : Bool :=
  o.isSet

/-- Embeds `Optional.Value` (src/unnamed/part_002): returns the raw `value`
field unconditionally, whether or not `isSet` holds. -/
def Optional.Value {T : Type} (o : Optional T) : T :=
  o.value

/-- Embeds `Optional.Then` (src/unnamed/part_002): replaces the value with
`f value` when set, otherwise a no-op; returns the receiver. -/
def Optional.Then {T : Type} (o : Optional T) (f : T → T) : Optional T :=
  if o.isSet then { o with value := f o.value } else o

/-- Modelled from the spec (spec.md section 4.1: callers must check first;
implementations should fail loudly rather than silently return a zero value):
a `Value` accessor that fails loudly on an absent Optional. Used only to
compare the spec's words with the source's `Optional.Value`. -/
def ValueLoud {T : Type} (o : Optional T) : Except String T :=
  if o.isSet then Except.ok o.value else Except.error "Optional value is not set"

/-- Embeds `Either[L, R]` (src/unnamed/part_006): two Optionals. -/
structure Either (L R : Type) where
  left : Optional L
  right : Optional R

/-- The Go zero value of `Either[L, R]`: both Optionals at their zero value. -/
instance {L R : Type} [Inhabited L] [Inhabited R] : Inhabited (Either L R) :=
  ⟨⟨default, default⟩⟩

/-- Embeds the constructor `Left` (src/unnamed/part_006). -/
def Left {L R : Type} [Inhabited R] (l : L) : Either L R :=
  ⟨Just l, Nothing R⟩

/-- Embeds the constructor `Right` (src/unnamed/part_006). -/
def Right {L R : Type} [Inhabited L] (r : R) : Either L R :=
  ⟨Nothing L, Just r⟩

/-- Embeds `Either.Flip` (src/unnamed/part_006): swaps the two sides. -/
def Either.Flip {L R : Type} (e : Either L R) : Either R L :=
  ⟨e.right, e.left⟩

/-- Embeds `Either.IsLeft` (src/unnamed/part_006). -/
def Either.IsLeft {L R : Type} (e : Either L R) : Bool :=
  e.left.isSet

/-- Embeds `Either.IsRight` (src/unnamed/part_006). -/
def Either.IsRight {L R : Type} (e : Either L R) : Bool :=
  e.right.isSet

/-- Embeds `Either.ToLeft` (src/unnamed/part_006). -/
def Either.ToLeft {L R : Type} (e : Either L R) : Optional L :=
  e.left

/-- Embeds `Either.ToRight` (src/unnamed/part_006). -/
def Either.ToRight {L R : Type} (e : Either L R) : Optional R :=
  e.right

/-- Embeds `Either.IfLeftThen` (src/unnamed/part_006): when `IsLeft`,
overwrites the left value with `f` of it; returns the receiver. -/
def Either.IfLeftThen {L R : Type} (e : Either L R) (f : L → L) : Either L R :=
  if e.IsLeft then { e with left := { e.left with value := f e.left.value } } else e

/-- Embeds `Either.IfRightThen` (src/unnamed/part_006). -/
def Either.IfRightThen {L R : Type} (e : Either L R) (f : R → R) : Either L R :=
  if e.IsRight then { e with right := { e.right with value := f e.right.value } } else e

/-- Embeds `Either.IfLeftThenApply` (src/unnamed/part_006): applies `f` for its
side effect only and returns the receiver unchanged; in this pure embedding the
returned Either is the receiver itself. -/
def Either.IfLeftThenApply {L R : Type} (e : Either L R) (_f : L → Unit) : Either L R :=
  e

/-- Embeds `Either.IfRightThenApply` (src/unnamed/part_006). -/
def Either.IfRightThenApply {L R : Type} (e : Either L R) (_f : R → Unit) : Either L R :=
  e

/-- Embeds `Result[T]` (src/either.go, src/result/result.go):
a named type over `Either[error, T]`; the Go `error` left side is nilable. -/
abbrev Result (T : Type) : Type :=
  Either (Option GoError) T

/-- Embeds `OK` (src/either.go): left Nothing, right Just. -/
def OK {T : Type} [Inhabited T] (t : T) : Result T :=
  ⟨Nothing (Option GoError), Just t⟩

/-- Embeds `Error` (src/either.go): left Just, right Nothing. The argument is
a Go `error` value, hence nilable. -/
def Error {T : Type} [Inhabited T] (e : Option GoError) : Result T :=
  ⟨Just e, Nothing T⟩

/-- Embeds `NewResult` (src/either.go): chooses `Error` whenever the error is
non-nil, regardless of the value; otherwise `OK`. -/
def NewResult {T : Type} [Inhabited T] (result : T) (e : Option GoError) : Result T :=
  match e with
  | some err => Error (some err)
  | none => OK result

/-- Embeds `Result.IsOK` (src/either.go): the right Optional is set. -/
def Result.IsOK {T : Type} (r : Result T) : Bool :=
  r.right.isSet

/-- Embeds `Result.IsError` (src/either.go): negation of `IsOK`. -/
def Result.IsError {T : Type} (r : Result T) : Bool :=
  !(Result.IsOK r)

/-- Embeds the `Promise[T]` struct (src/unnamed/part_003, src/unnamed/part_007):
`result chan T; err error`, in the state reached once its task goroutine has
completed. `result` lists the values sent on the channel and not yet received
(the task sends at most one, then closes the channel); `err` is the `err`
field, nil unless the task's Result was an error. -/
structure Promise (T : Type) where
  result : List T
  err : Option GoError

/-- Embeds `New` (src/unnamed/part_003 lines 35-49): the state of the created
promise once its goroutine has run the task to completion with Result `r`.
The goroutine does `r.IfErrorThen(err => p.err = err).IfOKThen(t => p.result <- t)`
and then closes the channel, so an OK task leaves one pending send of the value
with `err` nil, and an error task leaves an empty closed channel with `err`
set to the Result's left value. -/
def New {T : Type} [Inhabited T] (r : Result T) : Promise T :=
  { result := if Result.IsOK r then [r.right.value] else []
    err := if Result.IsError r then r.left.value else none }

/-- Embeds `Promise.Await` (src/unnamed/part_003 lines 78-81):
`res := <-p.result; return *R.NewResult(res, p.err)`. A pending send delivers
its value; a receive on the closed drained channel yields the zero value of
`T`. Returns the read Result together with the promise state after the
receive. -/
def Promise.Await {T : Type} [Inhabited T] (p : Promise T) : Result T × Promise T :=
  match p.result with
  | v :: rest => (NewResult v p.err, { p with result := rest })
  | [] => (NewResult default p.err, p)

/-- Embeds the task body of `Promise.Then` (src/unnamed/part_003 lines 52-65):
awaits the parent; `var result R.Result[T]` starts at the Go zero value;
`r.IfOKThen(ok)` assigns `successFn(t)` when OK; `.IfErrorThen(fail)` assigns
`r` itself when error. -/
def Promise.thenTask {T : Type} [Inhabited T] (p : Promise T) (successFn : T → Result T) :
    Result T :=
  let r := (Promise.Await p).1
  let result : Result T := default
  let result := if Result.IsOK r then successFn r.right.value else result
  let result := if Result.IsError r then r else result
  result

/-- Embeds `Promise.Then` (src/unnamed/part_003, package promise): a new
promise over the then-task. -/
def Promise.Then {T : Type} [Inhabited T] (p : Promise T) (successFn : T → Result T) :
    Promise T :=
  New (Promise.thenTask p successFn)

/-- Embeds the task body of the root package's `Promise.Then`
(src/unnamed/part_007 lines 31-41): awaits the parent;
`var result Result[T]` starts at the Go zero value; only `r.IfOKThenApply(fn)`
assigns `successFn(t)`; when the parent Result is an error the zero Result is
returned unchanged. -/
def Promise.thenTaskRoot {T : Type} [Inhabited T] (p : Promise T) (successFn : T → Result T) :
    Result T :=
  let r := (Promise.Await p).1
  let result : Result T := default
  let result := if Result.IsOK r then successFn r.right.value else result
  result

/-- Embeds the root package's `Promise.Then` (src/unnamed/part_007): a new
promise over its then-task. -/
def Promise.ThenRoot {T : Type} [Inhabited T] (p : Promise T) (successFn : T → Result T) :
    Promise T :=
  New (Promise.thenTaskRoot p successFn)

/-- Embeds the task body of `All` (src/unnamed/part_003 lines 86-109).
One goroutine per promise awaits it and appends either the value to `res` or
the error to `errs`; the appends land in goroutine completion order, so `ps`
is the promise list in arrival order (a permutation of the input order).
After the wait-group barrier: a non-empty `errs` yields
`Error(errors.Join(errs...))`, otherwise `OK(res)`. -/
def allTask {T : Type} [Inhabited T] (ps : List (Promise T)) : Result (List T) :=
  let rs := ps.map (fun p => (Promise.Await p).1)
  let res := rs.filterMap (fun r => if Result.IsOK r then some r.right.value else none)
  let errs := rs.filterMap (fun r => if Result.IsError r then some r.left.value else none)
  if errs.isEmpty then OK res else Error (joinErrors errs)

/-- Embeds `All` (src/unnamed/part_003): a new promise over the all-task,
taking the promises in arrival order. -/
def All {T : Type} [Inhabited T] (ps : List (Promise T)) : Promise (List T) :=
  New (allTask ps)

/-- Embeds the task body of `Any` (src/unnamed/part_003 lines 113-142).
One goroutine per promise awaits it and, on success, sends `Just t` into a
buffered channel of capacity one; a watcher closes the channel once every
goroutine has finished. The main read therefore returns `OK` of the first
success in arrival order, and, when no promise succeeds, the closed-channel
read selects the sentinel `errors.New("all promises failed")`. -/
def anyTask {T : Type} [Inhabited T] (ps : List (Promise T)) : Result (Optional T) :=
  let rs := ps.map (fun p => (Promise.Await p).1)
  match rs.find? (fun r => Result.IsOK r) with
  | some r => OK (Just r.right.value)
  | none => Error (some (GoError.msg "all promises failed"))

/-- Embeds `Any` (src/unnamed/part_003): a new promise over the any-task,
taking the promises in arrival order. -/
def Any {T : Type} [Inhabited T] (ps : List (Promise T)) : Promise (Optional T) :=
  New (anyTask ps)

/-- Embeds the `Reducer[T]` struct (src/unnamed/part_004): a wrapper around a
native array. -/
structure Reducer (T : Type) where
  array : List T

/-- Embeds `NewReducer` (src/unnamed/part_004). -/
def NewReducer {T : Type} (array : List T) : Reducer T :=
  ⟨array⟩

/-- The loop of `Reducer.Reduce` (src/unnamed/part_004):
`for i, v := range r.array[1:] { result = f(result, v, i, r.array) }`.
`full` is `r.array`; the index `i` counts from 0 over the tail slice. -/
def reduceLoop {T : Type} (f : T → T → Nat → List T → T) (full : List T) :
    T → Nat → List T → T
  | acc, _, [] => acc
  | acc, i, v :: vs => reduceLoop f full (f acc v i full) (i + 1) vs

/-- Embeds `Reducer.Reduce` (src/unnamed/part_004 lines 210-216):
`result := r.array[0]` then the fold loop over `r.array[1:]`. Indexing element
0 of an empty slice is a Go panic, modelled as `none`. -/
def Reducer.Reduce {T : Type} (r : Reducer T) (f : T → T → Nat → List T → T) :
    Option T :=
  match r.array with
  | [] => none
  | x :: rest => some (reduceLoop f r.array x 0 rest)

/-- The mutual-exclusion invariant of `Either` (spec.md section 3): exactly one
of the two Optionals is present, never both, never neither. -/
def Either.ExactlyOne {L R : Type} (e : Either L R) : Prop :=
  (e.left.isSet = true ∧ e.right.isSet = false) ∨
    (e.left.isSet = false ∧ e.right.isSet = true)

/-- The Either values built by the public constructors `Left` and `Right` and
transformed only by the public Either-returning operations of
src/unnamed/part_006 (`Flip`, `IfLeftThen`, `IfRightThen` and their `Apply`
variants; `IsLeft`, `IsRight`, `ToLeft`, `ToRight` do not return an Either). -/
inductive Reach : {L R : Type} → Either L R → Prop where
  | ofLeft {L R : Type} [Inhabited R] (l : L) : Reach (Left l : Either L R)
  | ofRight {L R : Type} [Inhabited L] (r : R) : Reach (Right r : Either L R)
  | flip {L R : Type} {e : Either L R} : Reach e → Reach e.Flip
  | ifLeftThen {L R : Type} {e : Either L R} (f : L → L) :
      Reach e → Reach (e.IfLeftThen f)
  | ifRightThen {L R : Type} {e : Either L R} (f : R → R) :
      Reach e → Reach (e.IfRightThen f)
  | ifLeftThenApply {L R : Type} {e : Either L R} (f : L → Unit) :
      Reach e → Reach (e.IfLeftThenApply f)
  | ifRightThenApply {L R : Type} {e : Either L R} (f : R → Unit) :
      Reach e → Reach (e.IfRightThenApply f)

/-- A Result a completed task produces through the public constructors:
`OK` of a value, or `Error` of a non-nil error. -/
def isCommitted {T : Type} [Inhabited T] (r : Result T) : Prop :=
  (∃ v, r = OK v) ∨ (∃ e, r = Error (some e))

/-- The rejection causes of a list of task Results, in order: the non-nil
error values of the Results that are errors. -/
def causes {T : Type} (tasks : List (Result T)) : List GoError :=
  tasks.filterMap (fun r => if Result.IsError r then r.left.value else none)

theorem await_New_committed {T : Type} [Inhabited T] {r : Result T}
    (h : isCommitted r) : (Promise.Await (New r)).1 = r := by
  rcases h with ⟨v, rfl⟩ | ⟨e, rfl⟩ <;> rfl

theorem filterMap_id_errs {T : Type} (l : List (Result T)) :
    (l.filterMap (fun r => if Result.IsError r then some r.left.value else none)).filterMap id
      = causes l := by
  induction l with
  | nil => rfl
  | cons r l ih =>
      by_cases h : Result.IsError r
      · cases hv : r.left.value <;>
          simp [causes, List.filterMap_cons, h, hv, ih]
      · simp only [causes, List.filterMap_cons, h, if_false, Bool.false_eq_true,
          ite_false] at ih ⊢
        exact ih

/-- C1: the single-channel design is not a repeatable read. A promise whose
task returned `OK(42)` yields `OK 42` from the first `Await`, but the second
`Await` reads the closed drained channel and yields `OK 0`, a different
Result. This refutes the claim that every waiter observes the identical
committed outcome. -/
theorem await_second_read_loses_value :
    (Promise.Await (New (OK (42 : Nat)))).1 = OK 42 ∧
    (Promise.Await ((Promise.Await (New (OK (42 : Nat)))).2)).1 = OK 0 ∧
    OK (0 : Nat) ≠ OK 42 :=
  ⟨rfl, rfl, by simp [OK, Just, Nothing]⟩

/-- C9: after a fulfilled promise has been awaited once, every later `Await`
returns `OK` of the zero value of `T` with the `err` field still nil (the
post-first-read state is a fixpoint of `Await`); for a promise whose task
returned an error, every `Await`, first or later, returns that same error
Result (its state is already a fixpoint of `Await`). -/
theorem await_channel_semantics {T : Type} [Inhabited T] (v : T) (e : GoError) :
    (Promise.Await (New (OK v))).1 = OK v ∧
    ((Promise.Await (New (OK v))).2).err = none ∧
    (Promise.Await ((Promise.Await (New (OK v))).2)).1 = OK (default : T) ∧
    (Promise.Await ((Promise.Await (New (OK v))).2)).2 = (Promise.Await (New (OK v))).2 ∧
    (Promise.Await (New (Error (some e) : Result T))).1 = Error (some e) ∧
    (Promise.Await (New (Error (some e) : Result T))).2 = New (Error (some e)) :=
  ⟨rfl, rfl, rfl, rfl, rfl, rfl⟩

theorem await_channel_semantics_witness :
    (Promise.Await (New (OK (7 : Nat)))).1 = OK 7 ∧
    ((Promise.Await (New (OK (7 : Nat)))).2).err = none ∧
    (Promise.Await ((Promise.Await (New (OK (7 : Nat)))).2)).1 = OK 0 ∧
    (Promise.Await ((Promise.Await (New (OK (7 : Nat)))).2)).2
      = (Promise.Await (New (OK (7 : Nat)))).2 ∧
    (Promise.Await (New (Error (some (GoError.msg "boom")) : Result Nat))).1
      = Error (some (GoError.msg "boom")) ∧
    (Promise.Await (New (Error (some (GoError.msg "boom")) : Result Nat))).2
      = New (Error (some (GoError.msg "boom"))) :=
  await_channel_semantics 7 (GoError.msg "boom")

/-- C6: with zero promises the aggregates resolve at once: `Any []` rejects
with the sentinel error (vacuous failure) and `All []` fulfills with the
empty sequence. -/
theorem empty_aggregates {T : Type} [Inhabited T] :
    (Promise.Await (Any ([] : List (Promise T)))).1
      = Error (some (GoError.msg "all promises failed")) ∧
    (Promise.Await (All ([] : List (Promise T)))).1 = OK ([] : List T) :=
  ⟨rfl, rfl⟩

theorem empty_aggregates_witness :
    (Promise.Await (Any ([] : List (Promise Nat)))).1
      = Error (some (GoError.msg "all promises failed")) ∧
    (Promise.Await (All ([] : List (Promise Nat)))).1 = OK ([] : List Nat) :=
  empty_aggregates (T := Nat)

/-- C8 counterexample: `Value` on an absent Optional does not fail loudly.
The source's `Value` on `Nothing` silently returns the zero value `0`,
whereas the spec-modelled loud accessor `ValueLoud` returns an error; the two
disagree at this input. -/
theorem value_not_loud_cex :
    (Nothing Nat).IsSet = false ∧
    (Nothing Nat).Value = 0 ∧
    ValueLoud (Nothing Nat) = Except.error "Optional value is not set" ∧
    Except.ok ((Nothing Nat).Value) ≠ ValueLoud (Nothing Nat) :=
  ⟨rfl, rfl, rfl, by simp [Nothing, Optional.Value, ValueLoud]⟩

/-- C8 amended: for an Optional with `IsSet` false built by `Nothing`,
`Value` silently returns the zero value of `T`; it never panics or reports
an error. -/
theorem value_returns_zero_silently (T : Type) [Inhabited T] :
    (Nothing T).IsSet = false ∧ (Nothing T).Value = (default : T) :=
  ⟨rfl, rfl⟩

theorem value_returns_zero_silently_witness :
    (Nothing Nat).IsSet = false ∧ (Nothing Nat).Value = (0 : Nat) :=
  value_returns_zero_silently Nat

theorem reduceLoop_eq_enumFrom_foldl {T : Type} (f : T → T → Nat → List T → T)
    (full : List T) (vs : List T) :
    ∀ (acc : T) (i : Nat),
      reduceLoop f full acc i vs
        = (List.enumFrom i vs).foldl (fun a p => f a p.2 p.1 full) acc := by
  induction vs with
  | nil => intro acc i; rfl
  | cons v vs ih => intro acc i; simp [reduceLoop, List.enumFrom, ih]

/-- C10: `Reduce` reads element 0 before folding, so on the empty array the
index access is out of bounds (the modelled panic, `none`), and on every
non-empty array it returns `some` of the left fold of `f` seeded with the
first element, the loop index counting from 0 over the tail. -/
theorem reduce_fold_semantics {T : Type} (f : T → T → Nat → List T → T) :
    Reducer.Reduce (NewReducer ([] : List T)) f = none ∧
    ∀ (x : T) (rest : List T),
      Reducer.Reduce (NewReducer (x :: rest)) f
        = some ((rest.enum).foldl (fun a p => f a p.2 p.1 (x :: rest)) x) := by
  refine ⟨rfl, ?_⟩
  intro x rest
  simp [Reducer.Reduce, NewReducer, reduceLoop_eq_enumFrom_foldl, List.enum]

theorem reduce_fold_semantics_witness :
    Reducer.Reduce (NewReducer ([] : List Nat)) (fun a v _ _ => a + v) = none ∧
    Reducer.Reduce (NewReducer [1, 2, 3]) (fun a v _ _ => a + v) = some 6 := by
  refine ⟨(reduce_fold_semantics _).1, ?_⟩
  rw [(reduce_fold_semantics (fun a v _ _ => a + v)).2 1 [2, 3]]
  rfl

/-- C2: `All` does not preserve the original input order. The input promises
fulfill with 1 and 2 in that input order, but when the second promise
completes first (the arrival list is a permutation of the input list), the
shared-append collection yields `OK [2, 1]`, not the index-keyed `OK [1, 2]`
the claim requires. -/
theorem all_collects_in_arrival_order :
    List.Perm [New (OK (2 : Nat)), New (OK 1)] [New (OK (1 : Nat)), New (OK 2)] ∧
    (Promise.Await (All [New (OK (2 : Nat)), New (OK 1)])).1 = OK [2, 1] ∧
    ([2, 1] : List Nat) ≠ [1, 2] :=
  ⟨List.Perm.swap _ _ _, rfl, by simp⟩

/-- C3: the promise package's `Then` (src/unnamed/part_003) forwards a
rejection unchanged and never invokes the success continuation, but the root
package's `Then` (src/unnamed/part_007) drops the rejection: its task leaves
the zero Result when the parent rejected, so the chained promise commits a
nil error and `Await` on it returns `OK 0` instead of the rejection with
`e1`. Both variants compute without consulting the continuation on a
rejected parent. -/
theorem then_root_swallows_rejection :
    (Promise.Await (Promise.Then (New (Error (some (GoError.msg "e1")) : Result Nat))
        (fun t => OK (t + 1)))).1 = Error (some (GoError.msg "e1")) ∧
    (∀ f g : Nat → Result Nat,
      Promise.thenTask (New (Error (some (GoError.msg "e1")) : Result Nat)) f
        = Promise.thenTask (New (Error (some (GoError.msg "e1")) : Result Nat)) g) ∧
    (Promise.Await (Promise.ThenRoot (New (Error (some (GoError.msg "e1")) : Result Nat))
        (fun t => OK (t + 1)))).1 = OK 0 ∧
    (∀ f g : Nat → Result Nat,
      Promise.thenTaskRoot (New (Error (some (GoError.msg "e1")) : Result Nat)) f
        = Promise.thenTaskRoot (New (Error (some (GoError.msg "e1")) : Result Nat)) g) ∧
    OK (0 : Nat) ≠ Error (some (GoError.msg "e1")) :=
  ⟨rfl, fun _ _ => rfl, rfl, fun _ _ => rfl,
    by simp [OK, Error, Just, Nothing]⟩

/-- C5: when every input of `Any` rejects, the aggregate rejects with the
constant sentinel `errors.New("all promises failed")`: the same rejection for
any causes whatsoever, so the underlying causes are discarded, not preserved.
The sentinel is not the join of the individual causes. -/
theorem any_sentinel_discards_causes :
    (Promise.Await (Any [New (Error (some (GoError.msg "e1")) : Result Nat),
        New (Error (some (GoError.msg "e2")))])).1
      = Error (some (GoError.msg "all promises failed")) ∧
    (∀ e e' : GoError,
      Promise.Await (Any [New (Error (some e) : Result Nat)])
        = Promise.Await (Any [New (Error (some e'))])) ∧
    GoError.msg "all promises failed" ≠ GoError.join [GoError.msg "e1", GoError.msg "e2"] :=
  ⟨rfl, fun _ _ => rfl, fun h => GoError.noConfusion h⟩

/-- C7: every Either built by `Left` or `Right` and transformed only by the
public operations has exactly one of its two Optionals present — never both,
never neither. -/
theorem reachable_exactly_one {L R : Type} {e : Either L R} (h : Reach e) :
    e.ExactlyOne := by
  induction h with
  | ofLeft l => exact Or.inl ⟨rfl, rfl⟩
  | ofRight r => exact Or.inr ⟨rfl, rfl⟩
  | flip _ ih =>
      rcases ih with ⟨h1, h2⟩ | ⟨h1, h2⟩
      · exact Or.inr ⟨h2, h1⟩
      · exact Or.inl ⟨h2, h1⟩
  | ifLeftThen f _ ih =>
      simp only [Either.IfLeftThen]
      split
      · exact ih
      · exact ih
  | ifRightThen f _ ih =>
      simp only [Either.IfRightThen]
      split
      · exact ih
      · exact ih
  | ifLeftThenApply f _ ih => exact ih
  | ifRightThenApply f _ ih => exact ih

theorem reachable_exactly_one_witness :
    ((Left (3 : Nat) : Either Nat Nat).Flip.IfLeftThen (fun l => l + 1)).ExactlyOne :=
  reachable_exactly_one (Reach.ifLeftThen _ (Reach.flip (Reach.ofLeft 3)))

/-- C4: whenever at least one input of `All` rejects, the aggregate rejects
with `errors.Join` of the collected errors, and those errors are exactly the
individual causes of the rejected inputs (as a permutation — the collection
order is the arrival order), so every cause is preserved, not just the first
failure. `tasks` is the input order, `arrivals` the completion order. -/
theorem all_joins_every_cause {T : Type} [Inhabited T]
    (tasks arrivals : List (Result T))
    (hperm : arrivals.Perm tasks)
    (hcom : ∀ r ∈ tasks, isCommitted r)
    (hfail : causes tasks ≠ []) :
    ∃ errs : List GoError,
      (Promise.Await (All (arrivals.map New))).1 = Error (some (GoError.join errs)) ∧
      errs.Perm (causes tasks) := by
  refine ⟨causes arrivals, ?_,
    hperm.filterMap (fun r => if Result.IsError r then r.left.value else none)⟩
  have hcauses : causes arrivals ≠ [] := by
    intro h0
    apply hfail
    have hlen :=
      (hperm.filterMap (fun r => if Result.IsError r then r.left.value else none)).length_eq
    rw [show arrivals.filterMap (fun r => if Result.IsError r then r.left.value else none)
        = causes arrivals from rfl, h0] at hlen
    exact List.length_eq_zero.mp hlen.symm
  have hawaits : (arrivals.map New).map (fun p => (Promise.Await p).1) = arrivals := by
    rw [List.map_map]
    have h1 : ∀ r ∈ arrivals, ((fun p => (Promise.Await p).1) ∘ New) r = id r := by
      intro r hr
      exact await_New_committed (hcom r (hperm.subset hr))
    rw [List.map_congr_left h1, List.map_id]
  have htask : allTask (arrivals.map New)
      = Error (some (GoError.join (causes arrivals))) := by
    simp only [allTask]
    rw [hawaits]
    have hflat := filterMap_id_errs arrivals
    have hne : (arrivals.filterMap
        (fun r => if Result.IsError r then some r.left.value else none)).isEmpty = false := by
      rcases h2 : arrivals.filterMap
          (fun r => if Result.IsError r then some r.left.value else none) with _ | ⟨a, l⟩
      · exfalso
        apply hcauses
        rw [← hflat, h2]
        rfl
      · rfl
    rw [hne]
    simp only [Bool.false_eq_true, if_false, joinErrors, hflat]
    have hne2 : (causes arrivals).isEmpty = false := by
      rcases h3 : causes arrivals with _ | ⟨a, l⟩
      · exact absurd h3 hcauses
      · rfl
    rw [hne2]
    rfl
  show (Promise.Await (New (allTask (arrivals.map New)))).1 = _
  rw [htask]
  exact await_New_committed (Or.inr ⟨_, rfl⟩)

theorem all_joins_every_cause_witness :
    ∃ errs : List GoError,
      (Promise.Await (All [New (OK (1 : Nat)), New (Error (some (GoError.msg "e1"))),
          New (Error (some (GoError.msg "e2")))])).1
        = Error (some (GoError.join errs)) ∧
      errs.Perm [GoError.msg "e1", GoError.msg "e2"] := by
  have h := all_joins_every_cause (T := Nat)
    [OK 1, Error (some (GoError.msg "e1")), Error (some (GoError.msg "e2"))]
    [OK 1, Error (some (GoError.msg "e1")), Error (some (GoError.msg "e2"))]
    (List.Perm.refl _)
    (by
      intro r hr
      simp only [List.mem_cons, List.not_mem_nil, or_false] at hr
      rcases hr with rfl | rfl | rfl
      · exact Or.inl ⟨1, rfl⟩
      · exact Or.inr ⟨GoError.msg "e1", rfl⟩
      · exact Or.inr ⟨GoError.msg "e2", rfl⟩)
    (by
      intro h0
      exact List.noConfusion h0)
  exact h

end Gophunc
